import Mathlib

/-!
Shallow embedding of `src/bank_system.py` (Bank Account Management System).

Monetary amounts are modelled as exact rationals (`ℚ`).  A Python
`ValueError` raised inside `deposit`/`withdraw` is modelled with `Except
ValueError`; both methods catch it themselves, so their outer interface is a
total function returning the new state together with the lines printed.  A
persisted JSON record is a structure of optional fields; `data["k"]` raising
`KeyError` is modelled with `Except PyError`.
-/

/-- A Python `ValueError` carrying its message. -/
structure ValueError where
  msg : String
deriving DecidableEq, Repr

/-- An uncaught Python exception escaping `load_from_file` (`KeyError k`). -/
inductive PyError
  | keyError (k : String)
deriving DecidableEq, Repr

/-- Base class `BankAccount`: `__init__(account_number, name, balance)` just
stores the three attributes, with no validation. -/
structure BankAccount where
  account_number : String
  name : String
  balance : ℚ
deriving DecidableEq, Repr

/-- Derived class `SavingsAccount`: the inherited attributes plus
`interest_rate` (default 0.05 in `__init__`). -/
structure SavingsAccount where
  toBankAccount : BankAccount
  interest_rate : ℚ
deriving DecidableEq, Repr

/-- A dynamically typed account value as returned by `load_from_file`. -/
inductive Account
  | bank (b : BankAccount)
  | savings (s : SavingsAccount)
deriving DecidableEq, Repr

/-- `get_balance`: the only read path to the private `__balance`. -/
def BankAccount.get_balance (b : BankAccount) : ℚ :=
  b.balance

/-- Body of the `try:` block of `BankAccount.deposit`: raises `ValueError`
for a non-positive amount, otherwise adds the amount and prints a success
message. -/
def BankAccount.depositBody (b : BankAccount) (amount : ℚ) :
    Except ValueError (BankAccount × String) :=
  if amount ≤ 0 then
    Except.error ⟨"Deposit amount must be positive."⟩
  else
    Except.ok ({ b with balance := b.balance + amount },
      "deposited successfully!")

/-- `BankAccount.deposit`: runs the body and catches any `ValueError`,
printing `Error: <msg>`; returns the (possibly unchanged) account and the
printed lines. -/
def BankAccount.deposit (b : BankAccount) (amount : ℚ) :
    BankAccount × List String :=
  match b.depositBody amount with
  | Except.ok (b2, out) => (b2, [out])
  | Except.error e => (b, ["Error: " ++ e.msg])

/-- Body of the `try:` block of `BankAccount.withdraw`: raises `ValueError`
for a non-positive amount, then for an amount exceeding the balance, in that
order; otherwise subtracts the amount. -/
def BankAccount.withdrawBody (b : BankAccount) (amount : ℚ) :
    Except ValueError (BankAccount × String) :=
  if amount ≤ 0 then
    Except.error ⟨"Withdrawal amount must be positive."⟩
  else if amount > b.balance then
    Except.error ⟨"Insufficient balance!"⟩
  else
    Except.ok ({ b with balance := b.balance - amount },
      "withdrawn successfully!")

/-- `BankAccount.withdraw`: runs the body and catches any `ValueError`,
printing `Error: <msg>`. -/
def BankAccount.withdraw (b : BankAccount) (amount : ℚ) :
    BankAccount × List String :=
  match b.withdrawBody amount with
  | Except.ok (b2, out) => (b2, [out])
  | Except.error e => (b, ["Error: " ++ e.msg])

/-- `SavingsAccount.calculate_interest`: returns
`self.get_balance() * self.interest_rate`, mutating nothing (it only prints
the amount). -/
def SavingsAccount.calculate_interest (s : SavingsAccount) : ℚ :=
  s.toBankAccount.get_balance * s.interest_rate

/-- One persisted JSON record (one file): every key may be absent. -/
structure Record where
  type : Option String
  account_number : Option String
  name : Option String
  balance : Option ℚ
  interest_rate : Option ℚ
deriving DecidableEq, Repr

/-- Python `data["k"]`: the value if the key is present, `KeyError k`
otherwise. -/
def getRequired {α : Type} (v : Option α) (k : String) : Except PyError α :=
  match v with
  | some x => Except.ok x
  | none => Except.error (PyError.keyError k)

/-- `BankAccount.save_to_file`: the record written for a plain account. -/
def BankAccount.save_to_file (b : BankAccount) : Record :=
  { type := some "BankAccount"
    account_number := some b.account_number
    name := some b.name
    balance := some b.balance
    interest_rate := none }

/-- `SavingsAccount.save_to_file` (override): the record written for a
savings account, with the `interest_rate` field included. -/
def SavingsAccount.save_to_file (s : SavingsAccount) : Record :=
  { type := some "SavingsAccount"
    account_number := some s.toBankAccount.account_number
    name := some s.toBankAccount.name
    balance := some s.toBankAccount.get_balance
    interest_rate := some s.interest_rate }

/-- The persistent store: the mapping from account number (file name stem)
to the stored record, `none` when the file does not exist. -/
def Store : Type := String → Option Record

/-- `BankAccount.load_from_file`: returns `none` (after printing
`Account not found!`) when no file exists; otherwise dispatches on
`data.get("type")`: the value `"SavingsAccount"` rebuilds a
`SavingsAccount` (with `data.get("interest_rate", 0.05)`), anything else a
plain `BankAccount`.  The indexing `data["..."]` of the three required keys
can raise `KeyError`, which is not caught. -/
def BankAccount.load_from_file (store : Store) (account_number : String) :
    Except PyError (Option Account) :=
  match store account_number with
  | none => Except.ok none
  | some data =>
    if data.type = some "SavingsAccount" then do
      let an ← getRequired data.account_number "account_number"
      let nm ← getRequired data.name "name"
      let bal ← getRequired data.balance "balance"
      pure (some (Account.savings ⟨⟨an, nm, bal⟩, data.interest_rate.getD 0.05⟩))
    else do
      let an ← getRequired data.account_number "account_number"
      let nm ← getRequired data.name "name"
      let bal ← getRequired data.balance "balance"
      pure (some (Account.bank ⟨an, nm, bal⟩))

/-- The balance of an account of either variant (the inherited private
field). -/
def Account.get_balance : Account → ℚ
  | Account.bank b => b.get_balance
  | Account.savings s => s.toBankAccount.get_balance

/-- The account number of an account of either variant. -/
def Account.account_number : Account → String
  | Account.bank b => b.account_number
  | Account.savings s => s.toBankAccount.account_number

/-- `deposit` as inherited by both variants: mutates the shared base
state. -/
def Account.deposit : Account → ℚ → Account × List String
  | Account.bank b, amt =>
    let r := b.deposit amt
    (Account.bank r.1, r.2)
  | Account.savings s, amt =>
    let r := s.toBankAccount.deposit amt
    (Account.savings ⟨r.1, s.interest_rate⟩, r.2)

/-- `withdraw` as inherited by both variants. -/
def Account.withdraw : Account → ℚ → Account × List String
  | Account.bank b, amt =>
    let r := b.withdraw amt
    (Account.bank r.1, r.2)
  | Account.savings s, amt =>
    let r := s.toBankAccount.withdraw amt
    (Account.savings ⟨r.1, s.interest_rate⟩, r.2)

/-- `save_to_file` with dynamic dispatch (the override for savings). -/
def Account.save_to_file : Account → Record
  | Account.bank b => b.save_to_file
  | Account.savings s => s.save_to_file

/-! ## Helper lemmas -/

theorem bank_deposit_invalid (b : BankAccount) (d : ℚ) (h : d ≤ 0) :
    b.deposit d = (b, ["Error: Deposit amount must be positive."]) := by
  simp [BankAccount.deposit, BankAccount.depositBody, h]

theorem bank_deposit_ok (b : BankAccount) (d : ℚ) (h : 0 < d) :
    b.deposit d =
      ({ b with balance := b.balance + d }, ["deposited successfully!"]) := by
  simp [BankAccount.deposit, BankAccount.depositBody, not_le.mpr h]

theorem bank_withdraw_invalid (b : BankAccount) (w : ℚ) (h : w ≤ 0) :
    b.withdraw w = (b, ["Error: Withdrawal amount must be positive."]) := by
  simp [BankAccount.withdraw, BankAccount.withdrawBody, h]

theorem bank_withdraw_insufficient (b : BankAccount) (w : ℚ)
    (h1 : 0 < w) (h2 : b.balance < w) :
    b.withdraw w = (b, ["Error: Insufficient balance!"]) := by
  simp [BankAccount.withdraw, BankAccount.withdrawBody, not_le.mpr h1, h2]

theorem bank_withdraw_ok (b : BankAccount) (w : ℚ)
    (h1 : 0 < w) (h2 : w ≤ b.balance) :
    b.withdraw w =
      ({ b with balance := b.balance - w }, ["withdrawn successfully!"]) := by
  simp [BankAccount.withdraw, BankAccount.withdrawBody, not_le.mpr h1,
    not_lt.mpr h2]

/-! ## Claim theorems -/

/-- C1: for every account (of either variant) and amount `w`, `withdraw`
reports `InvalidAmount` (message `Withdrawal amount must be positive.`) when
`w ≤ 0` — also when the funds check would fail too, showing the amount check
comes first — reports `InsufficientFunds` (message `Insufficient balance!`)
when `0 < w` and `w` exceeds the balance, and otherwise decreases the
balance by exactly `w`. -/
theorem withdraw_spec (a : Account) (w : ℚ) :
    (w ≤ 0 → a.withdraw w = (a, ["Error: Withdrawal amount must be positive."])) ∧
    (0 < w → a.get_balance < w →
      a.withdraw w = (a, ["Error: Insufficient balance!"])) ∧
    (0 < w → w ≤ a.get_balance →
      (a.withdraw w).1.get_balance = a.get_balance - w ∧
      (a.withdraw w).2 = ["withdrawn successfully!"]) := by
  refine ⟨?_, ?_, ?_⟩
  · intro h
    cases a with
    | bank b => simp [Account.withdraw, bank_withdraw_invalid b w h]
    | savings s => simp [Account.withdraw, bank_withdraw_invalid _ w h]
  · intro h1 h2
    cases a with
    | bank b =>
      simp [Account.withdraw, bank_withdraw_insufficient b w h1 h2]
    | savings s =>
      simp [Account.withdraw, bank_withdraw_insufficient _ w h1 h2]
  · intro h1 h2
    cases a with
    | bank b =>
      simp [Account.withdraw, bank_withdraw_ok b w h1 h2, Account.get_balance,
        BankAccount.get_balance]
    | savings s =>
      simp [Account.withdraw, bank_withdraw_ok _ w h1 h2, Account.get_balance,
        BankAccount.get_balance]

/-- Witness for C1 at concrete inputs: an account with balance 100 rejects a
withdrawal of -1 as invalid, rejects 200 as insufficient, and 30 leaves
balance 70. -/
theorem withdraw_spec_witness :
    (Account.bank ⟨"A1", "Asha", 100⟩).withdraw (-1) =
      (Account.bank ⟨"A1", "Asha", 100⟩,
        ["Error: Withdrawal amount must be positive."]) ∧
    (Account.bank ⟨"A1", "Asha", 100⟩).withdraw 200 =
      (Account.bank ⟨"A1", "Asha", 100⟩, ["Error: Insufficient balance!"]) ∧
    ((Account.bank ⟨"A1", "Asha", 100⟩).withdraw 30).1.get_balance = 100 - 30 := by
  refine ⟨?_, ?_, ?_⟩
  · exact (withdraw_spec (Account.bank ⟨"A1", "Asha", 100⟩) (-1)).1 (by norm_num)
  · exact (withdraw_spec (Account.bank ⟨"A1", "Asha", 100⟩) 200).2.1
      (by norm_num) (by norm_num [Account.get_balance, BankAccount.get_balance])
  · exact ((withdraw_spec (Account.bank ⟨"A1", "Asha", 100⟩) 30).2.2
      (by norm_num)
      (by norm_num [Account.get_balance, BankAccount.get_balance])).1

/-- C2: for every account (of either variant) and amount `d`, `deposit`
reports `InvalidAmount` (message `Deposit amount must be positive.`) when
`d ≤ 0`, and for every positive `d` it increases the balance by exactly `d`
and never fails (the only printed line is the success message). -/
theorem deposit_spec (a : Account) (d : ℚ) :
    (d ≤ 0 → a.deposit d = (a, ["Error: Deposit amount must be positive."])) ∧
    (0 < d →
      (a.deposit d).1.get_balance = a.get_balance + d ∧
      (a.deposit d).2 = ["deposited successfully!"]) := by
  refine ⟨?_, ?_⟩
  · intro h
    cases a with
    | bank b => simp [Account.deposit, bank_deposit_invalid b d h]
    | savings s => simp [Account.deposit, bank_deposit_invalid _ d h]
  · intro h
    cases a with
    | bank b =>
      simp [Account.deposit, bank_deposit_ok b d h, Account.get_balance,
        BankAccount.get_balance]
    | savings s =>
      simp [Account.deposit, bank_deposit_ok _ d h, Account.get_balance,
        BankAccount.get_balance]

/-- Witness for C2: depositing 0 is rejected with the state unchanged, and
depositing 100 on balance 0 yields 100. -/
theorem deposit_spec_witness :
    (Account.savings ⟨⟨"S1", "Ben", 0⟩, 0.05⟩).deposit 0 =
      (Account.savings ⟨⟨"S1", "Ben", 0⟩, 0.05⟩,
        ["Error: Deposit amount must be positive."]) ∧
    ((Account.savings ⟨⟨"S1", "Ben", 0⟩, 0.05⟩).deposit 100).1.get_balance =
      0 + 100 := by
  refine ⟨?_, ?_⟩
  · exact (deposit_spec (Account.savings ⟨⟨"S1", "Ben", 0⟩, 0.05⟩) 0).1 le_rfl
  · exact ((deposit_spec (Account.savings ⟨⟨"S1", "Ben", 0⟩, 0.05⟩) 100).2
      (by norm_num)).1

/-- C3: whenever `deposit` or `withdraw` fails (non-positive amount, or a
withdrawal amount exceeding the balance), the returned account equals the
account before the call — the whole state, not just the balance. -/
theorem failure_preserves_state (a : Account) (amt : ℚ) :
    (amt ≤ 0 → (a.deposit amt).1 = a) ∧
    (amt ≤ 0 ∨ a.get_balance < amt → (a.withdraw amt).1 = a) := by
  refine ⟨?_, ?_⟩
  · intro h
    cases a with
    | bank b => simp [Account.deposit, bank_deposit_invalid b amt h]
    | savings s => simp [Account.deposit, bank_deposit_invalid _ amt h]
  · intro h
    rcases le_or_lt amt 0 with h0 | h0
    · cases a with
      | bank b => simp [Account.withdraw, bank_withdraw_invalid b amt h0]
      | savings s => simp [Account.withdraw, bank_withdraw_invalid _ amt h0]
    · rcases h with h | h
      · exact absurd h0 (not_lt.mpr h)
      · cases a with
        | bank b =>
          simp [Account.withdraw, bank_withdraw_insufficient b amt h0 h]
        | savings s =>
          simp [Account.withdraw, bank_withdraw_insufficient _ amt h0 h]

/-- Witness for C3: a failing deposit of -5 and a failing withdrawal of 500
both leave an account with balance 100 intact. -/
theorem failure_preserves_state_witness :
    ((Account.bank ⟨"A2", "Cara", 100⟩).deposit (-5)).1 =
      Account.bank ⟨"A2", "Cara", 100⟩ ∧
    ((Account.bank ⟨"A2", "Cara", 100⟩).withdraw 500).1 =
      Account.bank ⟨"A2", "Cara", 100⟩ := by
  refine ⟨?_, ?_⟩
  · exact (failure_preserves_state (Account.bank ⟨"A2", "Cara", 100⟩) (-5)).1
      (by norm_num)
  · exact (failure_preserves_state (Account.bank ⟨"A2", "Cara", 100⟩) 500).2
      (Or.inr (by norm_num [Account.get_balance, BankAccount.get_balance]))

theorem bank_deposit_nonneg (b : BankAccount) (amt : ℚ) (h : 0 ≤ b.balance) :
    0 ≤ (b.deposit amt).1.balance := by
  rcases le_or_lt amt 0 with h0 | h0
  · rw [bank_deposit_invalid b amt h0]
    exact h
  · rw [bank_deposit_ok b amt h0]
    dsimp
    linarith

theorem bank_withdraw_nonneg (b : BankAccount) (amt : ℚ) (h : 0 ≤ b.balance) :
    0 ≤ (b.withdraw amt).1.balance := by
  rcases le_or_lt amt 0 with h0 | h0
  · rw [bank_withdraw_invalid b amt h0]
    exact h
  · rcases lt_or_le b.balance amt with h1 | h1
    · rw [bank_withdraw_insufficient b amt h0 h1]
      exact h
    · rw [bank_withdraw_ok b amt h0 h1]
      dsimp
      linarith

/-- C4 counterexample: `__init__` stores the caller-supplied initial balance
without validation, so constructing an account with initial balance -1
immediately violates `balance >= 0`. -/
theorem init_negative_balance_cex :
    (BankAccount.mk "N1" "Mallory" (-1)).balance < 0 := by
  norm_num

/-- C4 amended: `deposit` and `withdraw` preserve `0 ≤ balance` on every
account whose balance is already non-negative, and `save_to_file` persists
the balance unchanged; construction (and hence loading a stored record)
takes the caller-supplied balance verbatim, so non-negativity after
construction or load holds only when the supplied value is non-negative. -/
theorem balance_nonneg_preserved (a : Account) (amt : ℚ)
    (h : 0 ≤ a.get_balance) :
    0 ≤ (a.deposit amt).1.get_balance ∧
    0 ≤ (a.withdraw amt).1.get_balance ∧
    a.save_to_file.balance = some a.get_balance := by
  refine ⟨?_, ?_, ?_⟩
  · cases a with
    | bank b => exact bank_deposit_nonneg b amt h
    | savings s => exact bank_deposit_nonneg s.toBankAccount amt h
  · cases a with
    | bank b => exact bank_withdraw_nonneg b amt h
    | savings s => exact bank_withdraw_nonneg s.toBankAccount amt h
  · cases a with
    | bank b => rfl
    | savings s => rfl

/-- Witness for the amended C4 on an account with balance 100 and amount
60. -/
theorem balance_nonneg_preserved_witness :
    0 ≤ ((Account.bank ⟨"A4", "Esha", 100⟩).deposit 60).1.get_balance ∧
    0 ≤ ((Account.bank ⟨"A4", "Esha", 100⟩).withdraw 60).1.get_balance ∧
    (Account.bank ⟨"A4", "Esha", 100⟩).save_to_file.balance = some 100 :=
  balance_nonneg_preserved (Account.bank ⟨"A4", "Esha", 100⟩) 60
    (by norm_num [Account.get_balance, BankAccount.get_balance])

/-- C8: every `ValueError` raised inside `deposit`/`withdraw` is caught by
the method itself and turned into a normal return carrying the error
message — a recoverable condition, never fatal — and the message uniquely
identifies the failing condition, so the caller can decide whether to
retry. -/
theorem errors_recoverable (b : BankAccount) (amt : ℚ) :
    (∀ e, b.depositBody amt = Except.error e →
      b.deposit amt = (b, ["Error: " ++ e.msg])) ∧
    (∀ e, b.withdrawBody amt = Except.error e →
      b.withdraw amt = (b, ["Error: " ++ e.msg])) ∧
    (∀ e, b.depositBody amt = Except.error e →
      e.msg = "Deposit amount must be positive." ∧ amt ≤ 0) ∧
    (∀ e, b.withdrawBody amt = Except.error e →
      (e.msg = "Withdrawal amount must be positive." ∧ amt ≤ 0) ∨
      (e.msg = "Insufficient balance!" ∧ ¬amt ≤ 0 ∧ b.balance < amt)) := by
  refine ⟨?_, ?_, ?_, ?_⟩
  · intro e he
    simp [BankAccount.deposit, he]
  · intro e he
    simp [BankAccount.withdraw, he]
  · intro e he
    unfold BankAccount.depositBody at he
    by_cases h : amt ≤ 0
    · rw [if_pos h] at he
      cases he
      exact ⟨rfl, h⟩
    · rw [if_neg h] at he
      exact absurd he (by simp)
  · intro e he
    unfold BankAccount.withdrawBody at he
    by_cases h : amt ≤ 0
    · rw [if_pos h] at he
      cases he
      exact Or.inl ⟨rfl, h⟩
    · rw [if_neg h] at he
      by_cases h2 : amt > b.balance
      · rw [if_pos h2] at he
        cases he
        exact Or.inr ⟨rfl, h, h2⟩
      · rw [if_neg h2] at he
        exact absurd he (by simp)

/-- Witness for C8: the invalid deposit of -2 raises inside the body and is
reported as a normal return with the message. -/
theorem errors_recoverable_witness :
    (BankAccount.mk "A3" "Dev" 10).deposit (-2) =
      (BankAccount.mk "A3" "Dev" 10,
        ["Error: " ++ "Deposit amount must be positive."]) :=
  (errors_recoverable (BankAccount.mk "A3" "Dev" 10) (-2)).1
    ⟨"Deposit amount must be positive."⟩
    (by norm_num [BankAccount.depositBody])

/-- C9: `calculate_interest` returns `balance * interest_rate` (its purity
is reflected by the embedding: it only returns the amount, never a modified
account), and on a savings account with balance 1000 and rate 0.05 it
returns 50. -/
theorem calculate_interest_spec :
    (∀ s : SavingsAccount,
      s.calculate_interest = s.toBankAccount.get_balance * s.interest_rate) ∧
    SavingsAccount.calculate_interest ⟨⟨"S1", "Alice", 1000⟩, 0.05⟩ = 50 := by
  refine ⟨fun s => rfl, ?_⟩
  norm_num [SavingsAccount.calculate_interest, BankAccount.get_balance]

theorem getRequired_some {α : Type} (x : α) (k : String) :
    getRequired (some x) k = Except.ok x := rfl

theorem getRequired_none {α : Type} (k : String) :
    getRequired (none : Option α) k = Except.error (PyError.keyError k) := rfl

theorem getRequired_chain_error (an nm : Option String) (bal : Option ℚ)
    (f : String → String → ℚ → Except PyError (Option Account))
    (hmiss : an = none ∨ nm = none ∨ bal = none) :
    ∃ k, (do
        let a ← getRequired an "account_number"
        let n ← getRequired nm "name"
        let b ← getRequired bal "balance"
        f a n b) = Except.error (PyError.keyError k) := by
  rcases an with _ | a
  · exact ⟨"account_number", rfl⟩
  · rcases nm with _ | n
    · exact ⟨"name", rfl⟩
    · rcases bal with _ | b
      · exact ⟨"balance", rfl⟩
      · simp at hmiss

theorem load_some_record (store : Store) (id : String) (r : Record)
    (h : store id = some r) :
    BankAccount.load_from_file store id ≠ Except.ok none := by
  unfold BankAccount.load_from_file
  rw [h]
  dsimp only
  by_cases ht : r.type = some "SavingsAccount"
  · rw [if_pos ht]
    rcases han : r.account_number with _ | a <;>
      rcases hnm : r.name with _ | n <;>
      rcases hbal : r.balance with _ | b <;>
      simp [getRequired, Except.bind, Bind.bind, Pure.pure, Except.pure]
  · rw [if_neg ht]
    rcases han : r.account_number with _ | a <;>
      rcases hnm : r.name with _ | n <;>
      rcases hbal : r.balance with _ | b <;>
      simp [getRequired, Except.bind, Bind.bind, Pure.pure, Except.pure]

/-- C5: loading by the account number under which an account of either
variant was just saved reconstructs it exactly — same variant, account
number, holder name, balance, and (for savings) interest rate. -/
theorem save_load_roundtrip (a : Account) (store : Store)
    (h : store a.account_number = some a.save_to_file) :
    BankAccount.load_from_file store a.account_number =
      Except.ok (some a) := by
  unfold BankAccount.load_from_file
  rw [h]
  cases a with
  | bank b => rfl
  | savings s => rfl

/-- Witness for C5: a freshly saved savings account with balance 200 and
rate 0.05 round-trips. -/
theorem save_load_roundtrip_witness :
    BankAccount.load_from_file
      (fun _ => some (Account.save_to_file
        (Account.savings ⟨⟨"S1", "Alice", 200⟩, 0.05⟩)))
      (Account.account_number (Account.savings ⟨⟨"S1", "Alice", 200⟩, 0.05⟩)) =
      Except.ok (some (Account.savings ⟨⟨"S1", "Alice", 200⟩, 0.05⟩)) :=
  save_load_roundtrip (Account.savings ⟨⟨"S1", "Alice", 200⟩, 0.05⟩)
    (fun _ => some (Account.save_to_file
      (Account.savings ⟨⟨"S1", "Alice", 200⟩, 0.05⟩))) rfl

/-- C6: a stored record whose `type` field is missing or anything other
than `SavingsAccount` loads as a plain `BankAccount` built from the stored
account number, name and balance; the discriminator value never makes the
load fail. -/
theorem load_unknown_discriminator (store : Store) (id : String)
    (r : Record) (an nm : String) (bal : ℚ)
    (h : store id = some r) (ht : r.type ≠ some "SavingsAccount")
    (han : r.account_number = some an) (hnm : r.name = some nm)
    (hbal : r.balance = some bal) :
    BankAccount.load_from_file store id =
      Except.ok (some (Account.bank ⟨an, nm, bal⟩)) := by
  unfold BankAccount.load_from_file
  rw [h]
  dsimp only
  rw [if_neg ht, han, hnm, hbal]
  rfl

/-- Witness for C6: a record with discriminator `Unknown` loads as a plain
account. -/
theorem load_unknown_discriminator_witness :
    BankAccount.load_from_file
      (fun _ => some ⟨some "Unknown", some "B1", some "Bob", some 75, none⟩)
      "B1" =
      Except.ok (some (Account.bank ⟨"B1", "Bob", 75⟩)) :=
  load_unknown_discriminator
    (fun _ => some ⟨some "Unknown", some "B1", some "Bob", some 75, none⟩)
    "B1" ⟨some "Unknown", some "B1", some "Bob", some 75, none⟩
    "B1" "Bob" 75 rfl (by decide) rfl rfl rfl

/-- C7: a stored record with discriminator `SavingsAccount` loads as a
savings account; when the `interest_rate` field is absent the rate defaults
to 0.05, and when it is present the stored value is used. -/
theorem load_savings_rate (store : Store) (id : String)
    (r : Record) (an nm : String) (bal : ℚ)
    (h : store id = some r) (ht : r.type = some "SavingsAccount")
    (han : r.account_number = some an) (hnm : r.name = some nm)
    (hbal : r.balance = some bal) :
    (r.interest_rate = none →
      BankAccount.load_from_file store id =
        Except.ok (some (Account.savings ⟨⟨an, nm, bal⟩, 0.05⟩))) ∧
    (∀ ir, r.interest_rate = some ir →
      BankAccount.load_from_file store id =
        Except.ok (some (Account.savings ⟨⟨an, nm, bal⟩, ir⟩))) := by
  constructor
  · intro hir
    unfold BankAccount.load_from_file
    rw [h]
    dsimp only
    rw [if_pos ht, han, hnm, hbal, hir]
    rfl
  · intro ir hir
    unfold BankAccount.load_from_file
    rw [h]
    dsimp only
    rw [if_pos ht, han, hnm, hbal, hir]
    rfl

/-- Witness for C7: a savings record without `interest_rate` loads with the
default 0.05, and one storing 0.07 loads with 0.07. -/
theorem load_savings_rate_witness :
    BankAccount.load_from_file
      (fun _ => some ⟨some "SavingsAccount", some "S2", some "Dana", some 10, none⟩)
      "S2" =
      Except.ok (some (Account.savings ⟨⟨"S2", "Dana", 10⟩, 0.05⟩)) ∧
    BankAccount.load_from_file
      (fun _ => some ⟨some "SavingsAccount", some "S3", some "Eli", some 10,
        some 0.07⟩)
      "S3" =
      Except.ok (some (Account.savings ⟨⟨"S3", "Eli", 10⟩, 0.07⟩)) := by
  constructor
  · exact (load_savings_rate
      (fun _ => some ⟨some "SavingsAccount", some "S2", some "Dana", some 10, none⟩)
      "S2" ⟨some "SavingsAccount", some "S2", some "Dana", some 10, none⟩
      "S2" "Dana" 10 rfl rfl rfl rfl rfl).1 rfl
  · exact (load_savings_rate
      (fun _ => some ⟨some "SavingsAccount", some "S3", some "Eli", some 10,
        some 0.07⟩)
      "S3" ⟨some "SavingsAccount", some "S3", some "Eli", some 10, some 0.07⟩
      "S3" "Eli" 10 rfl rfl rfl rfl rfl).2 0.07 rfl

/-- C10: `load_from_file` returns `none` (NotFound) exactly when no record
exists for the id; when a record exists but lacks one of the required keys
`account_number`, `name` or `balance`, the call raises an uncaught
`KeyError` instead of returning `none` or an account. -/
theorem load_notfound_keyerror (store : Store) (id : String) :
    (BankAccount.load_from_file store id = Except.ok none ↔ store id = none) ∧
    (∀ r, store id = some r →
      (r.account_number = none ∨ r.name = none ∨ r.balance = none) →
      ∃ k, BankAccount.load_from_file store id =
        Except.error (PyError.keyError k)) := by
  constructor
  · constructor
    · intro hload
      cases hs : store id with
      | none => rfl
      | some r => exact absurd hload (load_some_record store id r hs)
    · intro h
      unfold BankAccount.load_from_file
      rw [h]
  · intro r hr hmiss
    unfold BankAccount.load_from_file
    rw [hr]
    dsimp only
    by_cases ht : r.type = some "SavingsAccount"
    · rw [if_pos ht]
      exact getRequired_chain_error _ _ _ _ hmiss
    · rw [if_neg ht]
      exact getRequired_chain_error _ _ _ _ hmiss

/-- Witness for C10: an empty store gives NotFound, and a record missing
its `balance` key raises a `KeyError`. -/
theorem load_notfound_keyerror_witness :
    BankAccount.load_from_file (fun _ => none) "X" = Except.ok none ∧
    ∃ k, BankAccount.load_from_file
      (fun _ => some ⟨some "BankAccount", some "X", some "Fay", none, none⟩)
      "X" = Except.error (PyError.keyError k) := by
  constructor
  · exact (load_notfound_keyerror (fun _ => none) "X").1.mpr rfl
  · exact (load_notfound_keyerror
      (fun _ => some ⟨some "BankAccount", some "X", some "Fay", none, none⟩)
      "X").2 ⟨some "BankAccount", some "X", some "Fay", none, none⟩ rfl
      (Or.inr (Or.inr rfl))
